import Mathlib

/-
Verification of the pdfconvertor core against its specification.

The Python source under src/ is shallowly embedded below:
pure computations become Lean functions, the stateful pool and batch
loop become explicit state-passing step functions, and calls into
external libraries (pikepdf, PIL, win32com, the filesystem) are
modelled as oracle parameters that supply the outcome of each external
call while the control flow around them is translated faithfully.
-/

namespace PdfConv

/-! ## Compression settings (src/converter/doc_converter.py, DocConverter) -/

/-- The compression settings dict handed to DocConverter:
keys enable_compression and compression_level; the level key may be
absent, which _compress_pdf defaults to 6 via dict.get. -/
structure CompressionSettings where
  enable_compression : Bool
  compression_level : Option Int
deriving DecidableEq

/-- Default settings used when the caller passes None
(doc_converter.py lines 30-33). -/
def defaultSettings : CompressionSettings :=
  { enable_compression := false, compression_level := some 6 }

/-- DocConverter constructor body for the compression settings:
`self.compression_settings = compression_settings or default`
(doc_converter.py lines 30-33).  No validation is performed. -/
def docConverterInit (compression_settings : Option CompressionSettings) :
    CompressionSettings :=
  compression_settings.getD defaultSettings

/-- The level actually used by _compress_pdf:
`self.compression_settings.get('compression_level', 6)`
(doc_converter.py line 239). -/
def effectiveLevel (s : CompressionSettings) : Int :=
  s.compression_level.getD 6

/-! ## Per-level image parameter tables (doc_converter.py lines 286-322) -/

/-- JPEG quality chosen by the if/elif chain at lines 288-314: the
final else branch catches every level that is not 1..8. -/
def jpegQuality (compression_level : Int) : Nat :=
  if compression_level = 1 then 100
  else if compression_level = 2 then 95
  else if compression_level = 3 then 90
  else if compression_level = 4 then 85
  else if compression_level = 5 then 80
  else if compression_level = 6 then 75
  else if compression_level = 7 then 65
  else if compression_level = 8 then 55
  else 45

/-- The should_resize flag computed in the same chain: false for
levels 1-4, a dimension test for levels 5-8, and the else branch
(level 9 and anything not 1..8) tests against 1000. -/
def shouldResizeAt (compression_level : Int) (w h : Nat) : Bool :=
  if compression_level = 1 then false
  else if compression_level = 2 then false
  else if compression_level = 3 then false
  else if compression_level = 4 then false
  else if compression_level = 5 then decide (2000 < w) || decide (2000 < h)
  else if compression_level = 6 then decide (1600 < w) || decide (1600 < h)
  else if compression_level = 7 then decide (1400 < w) || decide (1400 < h)
  else if compression_level = 8 then decide (1200 < w) || decide (1200 < h)
  else decide (1000 < w) || decide (1000 < h)

/-- Thumbnail bound from the literal dict at lines 318-320, with the
dict.get default 2000. -/
def thumbnailMaxSize (compression_level : Int) : Nat :=
  if compression_level = 5 then 2000
  else if compression_level = 6 then 1600
  else if compression_level = 7 then 1400
  else if compression_level = 8 then 1200
  else if compression_level = 9 then 1000
  else 2000

/-- The resize-trigger dimension threshold of the spec, read off the
should_resize conditions for levels 1..9: none means the level never
triggers a resize. -/
def resizeThreshold (compression_level : Int) : Option Nat :=
  if compression_level = 5 then some 2000
  else if compression_level = 6 then some 1600
  else if compression_level = 7 then some 1400
  else if compression_level = 8 then some 1200
  else if compression_level = 9 then some 1000
  else none

/-- Order on optional thresholds where none stands for an infinite
threshold: infLe a b means a is at most b. -/
def infLe : Option Nat → Option Nat → Bool
  | _, none => true
  | none, some _ => false
  | some a, some b => decide (a ≤ b)

/-! ## Embedded image streams and the per-image decision
(doc_converter.py lines 254-385) -/

/-- The stream Filter entry of an embedded PDF image that the code
distinguishes (line 272 compares against FlateDecode). -/
inductive PdfFilterKind
  | flateDecode
  | dctDecode
  | otherFilter
deriving DecidableEq

/-- PIL image modes the code branches on (lines 280, 286, 348). -/
inductive ImageMode
  | modeRGB
  | modeL
  | modeRGBA
  | modeCMYK
  | modeLAB
  | modeOther
deriving DecidableEq

/-- One embedded image XObject stream: its Filter entry (none when the
stream is uncompressed), its raw bytes, its pixel dimensions and its
decoded PIL mode. -/
structure ImageStream where
  filt : Option PdfFilterKind
  raw : List Nat
  width : Nat
  height : Nat
  mode : ImageMode
deriving DecidableEq

/-- Line 272:
should_compress = (level >= 3) or (filter is None or filter == FlateDecode). -/
def shouldCompressStream (compression_level : Int) (filt : Option PdfFilterKind) :
    Bool :=
  decide (3 ≤ compression_level)
    || (decide (filt = none) || decide (filt = some PdfFilterKind.flateDecode))

/-- Lines 280-281: CMYK and LAB images are converted to RGB before
re-encoding; other modes are kept. -/
def convertColorSpace (m : ImageMode) : ImageMode :=
  match m with
  | .modeCMYK => .modeRGB
  | .modeLAB => .modeRGB
  | m => m

/-- What happened to one embedded image stream. -/
inductive ImageAction
  | untouched
  | replacedJpeg (bytes : List Nat)
  | replacedPng (bytes : List Nat)
deriving DecidableEq

/-- The per-image body of the compression loop (lines 260-385).
decodeOk is the oracle for the try block around PIL decoding and
re-encoding (any exception there is swallowed, leaving the stream
untouched); jpegOut and pngOut are the bytes the external encoders
produce for this image.  Level 1 skips every image (line 262); the
RGB/L branch replaces the stream when level >= 3 or the new encoding
is strictly smaller (line 342); the RGBA branch flattens and replaces
unconditionally at level >= 5 (line 367) and PNG-re-encodes with a
strict size test below level 5 (line 372). -/
def processImage (compression_level : Int) (img : ImageStream)
    (decodeOk : Bool) (jpegOut : List Nat) (pngOut : List Nat) : ImageAction :=
  if compression_level = 1 then .untouched
  else if shouldCompressStream compression_level img.filt then
    if decodeOk then
      match convertColorSpace img.mode with
      | .modeRGB | .modeL =>
          if 3 ≤ compression_level ∨ jpegOut.length < img.raw.length then
            .replacedJpeg jpegOut
          else .untouched
      | .modeRGBA =>
          if 5 ≤ compression_level then .replacedJpeg jpegOut
          else if pngOut.length < img.raw.length then .replacedPng pngOut
          else .untouched
      | _ => .untouched
    else .untouched
  else .untouched

/-! ## Whole-file compression (doc_converter.py lines 221-463) -/

/-- A PDF container as the page-by-page list of its embedded image
streams, the only parts _compress_pdf edits. -/
abbrev PdfPages := List (List ImageStream)

/-- Oracles for the external image libraries: whether PIL decoding of
a stream succeeds and which bytes the JPEG and PNG encoders return. -/
structure ImageOracle where
  decodeOk : ImageStream → Bool
  jpegOut : ImageStream → List Nat
  pngOut : ImageStream → List Nat

/-- The image loop applied to the whole container. -/
def processedPdf (compression_level : Int) (o : ImageOracle) (pages : PdfPages) :
    List (List ImageAction) :=
  pages.map (fun pg =>
    pg.map (fun img =>
      processImage compression_level img (o.decodeOk img) (o.jpegOut img)
        (o.pngOut img)))

/-- Outcome of the pikepdf save to the temporary path (line 435):
either some exception was raised (caught at line 457, which unlinks
the temporary file and returns False) or the temporary file was
written with the given bytes. -/
inductive SaveOutcome
  | raised
  | savedBytes (temp : List Nat)
deriving DecidableEq

/-- The file-level behaviour of _compress_pdf: run the image loop,
save the container to the temporary path, then (lines 439-452)
compare sizes and either replace the original via os.replace and
return True, or unlink the temporary file, keep the original bytes
and return False.  The returned pair is the final content of the
original path and the boolean result. -/
def compressPdf (settings : CompressionSettings) (origBytes : List Nat)
    (pages : PdfPages) (o : ImageOracle)
    (save : List (List ImageAction) → SaveOutcome) : List Nat × Bool :=
  let compression_level := effectiveLevel settings
  match save (processedPdf compression_level o pages) with
  | .raised => (origBytes, false)
  | .savedBytes temp =>
      if temp.length < origBytes.length then (temp, true)
      else (origBytes, false)

/-! ## Legacy .doc conversion (doc_converter.py, DocConverter._convert_doc,
lines 122-219) -/

/-- Observable engine operations performed by _convert_doc.  The
alphabet also contains the two WordPool operations so that the trace
can record whether the pool (src/converter/word_pool.py) is ever
consulted; _convert_doc itself never references WordPool. -/
inductive ComEvent
  | coInit
  | dispatchNewWord
  | openDocument (readOnly : Bool) (confirmConversions : Bool)
      (addToRecentFiles : Bool)
  | saveAsPdf (embedTrueTypeFonts : Bool)
  | closeDocument (saveChanges : Bool)
  | quitWord
  | coUninit
  | poolAcquireWord
  | poolReleaseWord
deriving DecidableEq

/-- Which external call of _convert_doc fails, if any: DispatchEx
(line 157), Documents.Open (line 166), SaveAs (line 178), or none. -/
inductive DocConvOutcome
  | wordStartFails
  | openFails
  | saveFails
  | allOk
deriving DecidableEq

/-- The trace of engine operations and the success flag of
_convert_doc.  On non-Windows platforms the function returns False
immediately (line 136).  Otherwise COM is initialised, Word is
created with DispatchEx, the document is opened with ReadOnly=True,
ConfirmConversions=False, AddToRecentFiles=False, saved as PDF with
EmbedTrueTypeFonts=True, and the finally block (lines 197-219) closes
the document with SaveChanges=False when it was opened, quits Word
when it was created, and uninitialises COM, on every exit path. -/
def convertDocEvents (is_windows : Bool) (outcome : DocConvOutcome) :
    List ComEvent × Bool :=
  if is_windows = false then ([], false)
  else
    match outcome with
    | .wordStartFails =>
        ([.coInit, .dispatchNewWord, .coUninit], false)
    | .openFails =>
        ([.coInit, .dispatchNewWord, .openDocument true false false,
          .quitWord, .coUninit], false)
    | .saveFails =>
        ([.coInit, .dispatchNewWord, .openDocument true false false,
          .saveAsPdf true, .closeDocument false, .quitWord, .coUninit], false)
    | .allOk =>
        ([.coInit, .dispatchNewWord, .openDocument true false false,
          .saveAsPdf true, .closeDocument false, .quitWord, .coUninit], true)

/-! ## Recovery checkpoints (src/utils/recovery_manager.py) -/

/-- The record save_state writes to recovery.json (lines 49-57). -/
structure RecoveryState where
  files : List String
  output_folder : Option String
  processed : List Nat
  failed : List Nat
  total : Nat
  remaining : Int
deriving DecidableEq

/-- The state dict built by save_state: total is len(files) and
remaining is len(files) - len(processed) - len(failed). -/
def saveStateRecord (files : List String) (output_folder : Option String)
    (processed failed : List Nat) : RecoveryState :=
  { files := files
    output_folder := output_folder
    processed := processed
    failed := failed
    total := files.length
    remaining := (files.length : Int) - processed.length - failed.length }

/-- The durable store holding at most one checkpoint record. -/
abbrev RecoveryStore := Option RecoveryState

/-- save_state overwrites the store with the freshly built record. -/
def save_state (_ : RecoveryStore) (files : List String)
    (output_folder : Option String) (processed failed : List Nat) :
    RecoveryStore :=
  some (saveStateRecord files output_folder processed failed)

/-- load_state returns the stored record, or none when no checkpoint
file exists. -/
def load_state (store : RecoveryStore) : Option RecoveryState :=
  store

/-- clear_state deletes the checkpoint file. -/
def clear_state (_ : RecoveryStore) : RecoveryStore :=
  none

/-! ## The batch loop (src/gui/main_window.py, _perform_conversion,
lines 422-505) -/

/-- Outcome of one job, folding the per-job branches of the loop:
validation failure (line 447), output-exists skip (line 459),
insufficient disk space (line 475), conversion failure or success
(line 485).  Every branch except success appends the index to
failed_indices; success appends it to processed_indices. -/
inductive JobOutcome
  | invalidFile
  | outputExistsSkip
  | insufficientDisk
  | conversionFails
  | conversionOk
deriving DecidableEq

/-- The mutable state of _perform_conversion, together with the
sequence of checkpoints passed to save_state and whether clear_state
has run. -/
structure BatchState where
  success_count : Nat
  fail_count : Nat
  processed_indices : List Nat
  failed_indices : List Nat
  checkpoints : List (List Nat × List Nat)
  recoveryCleared : Bool
deriving DecidableEq

/-- Counters and index lists all start empty (lines 425-428). -/
def initialBatchState : BatchState :=
  { success_count := 0, fail_count := 0, processed_indices := []
    failed_indices := [], checkpoints := [], recoveryCleared := false }

/-- Bookkeeping for one job (lines 447-492): success increments
success_count and appends to processed_indices, every failure branch
increments fail_count and appends to failed_indices. -/
def recordJob (st : BatchState) (i : Nat) (out : JobOutcome) : BatchState :=
  match out with
  | .conversionOk =>
      { st with success_count := st.success_count + 1
                processed_indices := st.processed_indices ++ [i] }
  | _ =>
      { st with fail_count := st.fail_count + 1
                failed_indices := st.failed_indices ++ [i] }

/-- One loop iteration for index i: record the job, then persist a
checkpoint when (i + 1) % 5 == 0 (lines 497-498). -/
def batchStep (st : BatchState) (i : Nat) (out : JobOutcome) : BatchState :=
  let st2 := recordJob st i out
  if (i + 1) % 5 = 0 then
    { st2 with
        checkpoints :=
          st2.checkpoints ++ [(st2.processed_indices, st2.failed_indices)] }
  else st2

/-- The for loop over the job indices: stop_conversion is read at the
top of each iteration (line 433) and breaks out of the loop; stop i
is the value of that advisory flag when iteration i starts. -/
def runBatchAux (outcome : Nat → JobOutcome) (stop : Nat → Bool) :
    List Nat → BatchState → BatchState
  | [], st => st
  | i :: rest, st =>
      if stop i then st
      else runBatchAux outcome stop rest (batchStep st i (outcome i))

/-- The whole of _perform_conversion for n queued files: run the loop
over indices 0..n-1, then clear the recovery state (line 503), which
runs after the loop on both normal completion and break. -/
def performConversion (n : Nat) (outcome : Nat → JobOutcome)
    (stop : Nat → Bool) : BatchState :=
  let final := runBatchAux outcome stop (List.range n) initialBatchState
  { final with recoveryCleared := true }

/-- Number of loop iterations that actually execute, which is the
number of completed jobs: the longest prefix of 0..n-1 on which the
stop flag is still unset. -/
def completedJobs (n : Nat) (stop : Nat → Bool) : Nat :=
  ((List.range n).takeWhile (fun i => ! stop i)).length

/-! ## The Word engine pool (src/converter/word_pool.py) -/

/-- One Word COM instance: how many documents its session has open
(Documents.Count) and whether it still answers a liveness probe
(reading word.Name, line 120). -/
structure WordInstance where
  openDocs : Nat
  alive : Bool
deriving DecidableEq

/-- The pool state: pool_size is min(requested, 4) (line 25), pool is
the queue of idle instances (bounded by pool_size), plus the
_initialized and _closed flags. -/
structure WordPool where
  pool_size : Nat
  pool : List WordInstance
  poolFilled : Bool
  closed : Bool
deriving DecidableEq

/-- WordPool constructor (lines 18-31). -/
def WordPool.create (requested : Nat) : WordPool :=
  { pool_size := min requested 4, pool := [], poolFilled := false
    closed := false }

/-- The lazy fill loop (lines 58-81): create up to pool_size fresh
instances, stopping at the first creation failure.  createdAlive
lists the liveness of each instance the oracle lets the loop create;
a fresh instance always has zero open documents. -/
def WordPool.fillPool (p : WordPool) (createdAlive : List Bool) : WordPool :=
  if p.poolFilled then p
  else
    { p with
        pool := (createdAlive.take p.pool_size).map
          (fun a => { openDocs := 0, alive := a })
        poolFilled := true }

/-- A checked-out handle together with the retrieved_from_pool flag
that get_word threads into its finally block. -/
structure WordSession where
  inst : WordInstance
  retrieved_from_pool : Bool
deriving DecidableEq

/-- The finally block of get_word (lines 128-152): close every open
document of the session, then put the instance back into the pool
when it came from the pool, the pool is not closed and the bounded
queue has room (put_nowait), and destroy it otherwise. -/
def releaseInstance (p : WordPool) (s : WordSession) : WordPool :=
  let cleaned : WordInstance := { s.inst with openDocs := 0 }
  if s.retrieved_from_pool && ! p.closed then
    if p.pool.length < p.pool_size then { p with pool := p.pool ++ [cleaned] }
    else p
  else p

/-- The acquire half of get_word (lines 95-126).  tempAlive is the
oracle for creating a temporary out-of-pool instance when the queue
is empty (none means the creation raised); replAlive likewise for the
replacement created when the liveness probe fails.  When the
replacement creation raises before the yield, the finally block still
runs with the dead pooled instance and retrieved_from_pool still
true, so that instance is cleaned and returned to the pool. -/
def WordPool.acquireWord (p : WordPool) (initAlive : List Bool)
    (tempAlive : Option Bool) (replAlive : Option Bool) :
    WordPool × Option WordSession :=
  if p.closed then (p, none)
  else
    let p1 := p.fillPool initAlive
    match p1.pool with
    | w :: rest =>
        let p2 := { p1 with pool := rest }
        if w.alive then (p2, some { inst := w, retrieved_from_pool := true })
        else
          match replAlive with
          | some a =>
              (p2, some { inst := { openDocs := 0, alive := a }
                          retrieved_from_pool := false })
          | none =>
              (releaseInstance p2 { inst := w, retrieved_from_pool := true },
               none)
    | [] =>
        match tempAlive with
        | none => (p1, none)
        | some a =>
            let w : WordInstance := { openDocs := 0, alive := a }
            if w.alive then
              (p1, some { inst := w, retrieved_from_pool := false })
            else
              match replAlive with
              | some a2 =>
                  (p1, some { inst := { openDocs := 0, alive := a2 }
                              retrieved_from_pool := false })
              | none => (p1, none)

/-- close (lines 179-201): drain and destroy every pooled instance. -/
def WordPool.closePool (p : WordPool) : WordPool :=
  if p.closed then p else { p with closed := true, pool := [] }

/-- A pool together with the handles currently checked out. -/
structure PoolWorld where
  pool : WordPool
  checkedOut : List WordSession
deriving DecidableEq

/-- The operations clients can interleave on the pool.  evRelease k
docsLeftOpen finishes the get_word context of the k-th checked-out
session whose caller left docsLeftOpen documents open. -/
inductive PoolEvent
  | evAcquire (initAlive : List Bool) (tempAlive : Option Bool)
      (replAlive : Option Bool)
  | evRelease (k : Nat) (docsLeftOpen : Nat)
  | evClose
deriving DecidableEq

/-- Transition of the pool world under one operation. -/
def poolStep (w : PoolWorld) : PoolEvent → PoolWorld
  | .evAcquire ia ta ra =>
      match w.pool.acquireWord ia ta ra with
      | (p2, some s) => { pool := p2, checkedOut := w.checkedOut ++ [s] }
      | (p2, none) => { pool := p2, checkedOut := w.checkedOut }
  | .evRelease k docsLeftOpen =>
      match w.checkedOut[k]? with
      | none => w
      | some s =>
          let sUsed : WordSession :=
            { s with inst := { s.inst with openDocs := docsLeftOpen } }
          { pool := releaseInstance w.pool sUsed
            checkedOut := w.checkedOut.eraseIdx k }
  | .evClose => { pool := w.pool.closePool, checkedOut := w.checkedOut }

/-- The world reached from a fresh pool after a sequence of
operations. -/
def runPool (requested : Nat) (evs : List PoolEvent) : PoolWorld :=
  evs.foldl poolStep { pool := WordPool.create requested, checkedOut := [] }

/-- The safety predicate of the pool: the configured capacity is at
most 4, the idle-handle queue never exceeds the capacity, and every
idle instance has zero open documents. -/
def poolOk (p : WordPool) : Prop :=
  p.pool_size ≤ 4 ∧ p.pool.length ≤ p.pool_size
    ∧ ∀ inst ∈ p.pool, inst.openDocs = 0

/-! ## File integrity checks (src/converter/file_handler.py,
check_file_integrity, lines 177-224) -/

/-- The extension classes the check branches on. -/
inductive WordFileKind
  | docxFile
  | docFile
  | otherFile
deriving DecidableEq

/-- The zipfile view of a .docx: its name list and whether reading
word/document.xml succeeds. -/
structure ZipArchive where
  names : List String
  documentXmlReadable : Bool
deriving DecidableEq

/-- An input file as the integrity check observes it: its extension
class, its leading bytes, and its zip structure when is_zipfile
accepts it. -/
structure InputFile where
  kind : WordFileKind
  headBytes : List Nat
  zip : Option ZipArchive
deriving DecidableEq

/-- The OLE2 compound-file signature D0 CF 11 E0 A1 B1 1A E1
(line 214). -/
def docSignature : List Nat :=
  [0xD0, 0xCF, 0x11, 0xE0, 0xA1, 0xB1, 0x1A, 0xE1]

/-- check_file_integrity: for .docx require a valid zip containing
the content-types manifest and word/document.xml, the latter
readable; for .doc require the first 8 bytes to equal the OLE2
signature, rejecting shorter reads as well (f.read(8) returns the
whole file when it is shorter).  Reason strings abbreviate the
localized messages of the source. -/
def check_file_integrity (f : InputFile) : Bool × String :=
  match f.kind with
  | .docxFile =>
      match f.zip with
      | none => (false, "file damaged: not a zip archive")
      | some z =>
          if "[Content_Types].xml" ∉ z.names then
            (false, "file damaged: missing [Content_Types].xml")
          else if "word/document.xml" ∉ z.names then
            (false, "file damaged: missing word/document.xml")
          else if ! z.documentXmlReadable then
            (false, "file damaged: unreadable content")
          else (true, "OK")
  | .docFile =>
      if f.headBytes.take 8 = docSignature then (true, "OK")
      else (false, "file damaged or not a DOC")
  | .otherFile => (true, "OK")

/-! ## Batch conversion (doc_converter.py, convert_batch,
lines 465-515) -/

/-- One per-file record of the results list (lines 502-507). -/
structure FileConvResult where
  file : String
  success : Bool
  message : String
  output : Option String
deriving DecidableEq

/-- The aggregate dict convert_batch returns. -/
structure BatchResults where
  total : Nat
  success : Nat
  failed : Nat
  results : List FileConvResult
deriving DecidableEq

/-- The final component of a slash-separated path (Path.name). -/
def pathName (p : String) : String :=
  (p.splitOn "/").getLastD p

/-- Path.with_suffix applied with .pdf: drop the extension after the
last dot and append .pdf. -/
def withSuffixPdf (p : String) : String :=
  let parts := p.splitOn "."
  if parts.length ≤ 1 then p ++ ".pdf"
  else String.intercalate "." parts.dropLast ++ ".pdf"

/-- Output path selection (lines 492-496): under output_dir use the
renamed file name inside that directory, otherwise rename in place. -/
def outputPathFor (output_dir : Option String) (p : String) : String :=
  match output_dir with
  | some d => d ++ "/" ++ pathName (withSuffixPdf p)
  | none => withSuffixPdf p

/-- The per-file record appended by one loop iteration: the file
name, the outcome of convert_to_pdf, and output set to the output
path exactly on success (line 506). -/
def batchRecord (convOne : String → String → Bool × String)
    (output_dir : Option String) (p : String) : FileConvResult :=
  let outp := outputPathFor output_dir p
  let r := convOne p outp
  { file := pathName p, success := r.1, message := r.2
    output := if r.1 then some outp else none }

/-- One iteration of the convert_batch loop over the accumulator. -/
def batchFold (convOne : String → String → Bool × String)
    (output_dir : Option String) (acc : BatchResults) (p : String) :
    BatchResults :=
  let rec1 := batchRecord convOne output_dir p
  { acc with
      results := acc.results ++ [rec1]
      success := if rec1.success then acc.success + 1 else acc.success
      failed := if rec1.success then acc.failed else acc.failed + 1 }

/-- convert_batch: start from total = len(file_paths) and empty
counters, then run the loop over the input list in order.  convOne is
the oracle for convert_to_pdf (input path, output path) -> (success,
message). -/
def convert_batch (convOne : String → String → Bool × String)
    (file_paths : List String) (output_dir : Option String) : BatchResults :=
  file_paths.foldl (batchFold convOne output_dir)
    { total := file_paths.length, success := 0, failed := 0, results := [] }

/-! ## Claim C5 -/

/-- C5: over the fixed per-level table, for all levels 1 <= i < j <= 9
the JPEG quality at level j is at most the quality at level i and the
resize-trigger threshold at level j is at most the threshold at level
i (a level without resizing counting as an infinite threshold);
moreover the embedded should_resize test agrees with the threshold
table on levels 1..9, and the range runs from quality 100 with no
resize at level 1 down to quality 45 with threshold 1000 at level 9. -/
theorem C5_level_tables_monotone :
    (∀ i j : Int, 1 ≤ i → i < j → j ≤ 9 →
      jpegQuality j ≤ jpegQuality i
        ∧ infLe (resizeThreshold j) (resizeThreshold i) = true)
    ∧ (∀ lvl : Int, 1 ≤ lvl → lvl ≤ 9 → ∀ w h : Nat,
        shouldResizeAt lvl w h
          = (resizeThreshold lvl).elim false
              (fun t => decide (t < w) || decide (t < h)))
    ∧ jpegQuality 1 = 100 ∧ resizeThreshold 1 = none
    ∧ jpegQuality 9 = 45 ∧ resizeThreshold 9 = some 1000 := by
  refine ⟨?_, ?_, by decide, by decide, by decide, by decide⟩
  · intro i j h1 h2 h3
    have h4 : i ≤ 8 := by omega
    have h5 : 2 ≤ j := by omega
    interval_cases i <;> interval_cases j <;> exact ⟨by decide, by decide⟩
  · intro lvl h1 h2 w h
    interval_cases lvl <;> simp [shouldResizeAt, resizeThreshold]

/-- Witness for C5 at the pair of levels 5 and 9. -/
theorem C5_witness :
    jpegQuality 9 ≤ jpegQuality 5
      ∧ infLe (resizeThreshold 9) (resizeThreshold 5) = true :=
  C5_level_tables_monotone.1 5 9 (by decide) (by decide) (by decide)

/-! ## Claim C3 -/

/-- C3 counterexample: constructing the converter with compression
level 0 is neither rejected nor clamped; the out-of-range level is
stored verbatim, read back by _compress_pdf, and carried into the
quality table, where it selects the final else branch. -/
theorem C3_counterexample_no_clamp :
    docConverterInit
        (some { enable_compression := true, compression_level := some 0 })
      = { enable_compression := true, compression_level := some 0 }
    ∧ effectiveLevel
        (docConverterInit
          (some { enable_compression := true, compression_level := some 0 }))
      = 0
    ∧ ¬ (1 ≤ effectiveLevel
          (docConverterInit
            (some { enable_compression := true, compression_level := some 0 })))
    ∧ jpegQuality
        (effectiveLevel
          (docConverterInit
            (some { enable_compression := true, compression_level := some 0 })))
      = 45 :=
  ⟨rfl, rfl, by decide, by decide⟩

/-- C3 amended: construction stores the settings exactly as given
(defaulting only a missing dict or key), performs no clamping or
rejection, and the raw level is carried into compression, where every
level outside 1..8 falls through to the level-9 parameter branch. -/
theorem C3_amended_no_validation (s : CompressionSettings) (lvl : Int) :
    docConverterInit (some s) = s
    ∧ docConverterInit none = defaultSettings
    ∧ effectiveLevel s = s.compression_level.getD 6
    ∧ (lvl < 1 ∨ 9 < lvl →
        jpegQuality lvl = 45 ∧ thumbnailMaxSize lvl = 2000
          ∧ resizeThreshold lvl = none) := by
  refine ⟨rfl, rfl, rfl, ?_⟩
  intro hout
  rcases hout with h | h <;>
    refine ⟨?_, ?_, ?_⟩ <;>
      simp only [jpegQuality, thumbnailMaxSize, resizeThreshold] <;>
        split_ifs <;> first | rfl | (exfalso; omega)

/-- Witness for C3 amended at level 10. -/
theorem C3_amended_witness :
    jpegQuality 10 = 45 ∧ thumbnailMaxSize 10 = 2000
      ∧ resizeThreshold 10 = none :=
  (C3_amended_no_validation
      { enable_compression := false, compression_level := some 10 } 10).2.2.2
    (Or.inr (by decide))

/-! ## Claim C2 -/

/-- C2 counterexample: a successful .doc conversion on Windows never
touches the EnginePool; its engine trace records a directly created
Word instance and contains no pool acquire or release operation. -/
theorem C2_counterexample_no_pool :
    (convertDocEvents true DocConvOutcome.allOk).2 = true
    ∧ ComEvent.poolAcquireWord ∉ (convertDocEvents true DocConvOutcome.allOk).1
    ∧ ComEvent.poolReleaseWord ∉ (convertDocEvents true DocConvOutcome.allOk).1
    ∧ ComEvent.dispatchNewWord ∈ (convertDocEvents true DocConvOutcome.allOk).1 :=
  by decide

/-- C2 amended: _convert_doc does not use the EnginePool; on Windows
it initialises COM and creates a dedicated Word instance directly,
opens the document read-only without confirmation prompts, exports to
PDF with embedded fonts, and the finally block (close the document
without saving, quit Word, uninitialise COM) ends the trace on every
exit, whether the conversion succeeds, fails or raises; on other
platforms it fails immediately without touching any engine. -/
theorem C2_amended_direct_engine (outcome : DocConvOutcome) :
    convertDocEvents false outcome = ([], false)
    ∧ (convertDocEvents true outcome).1.getLast? = some ComEvent.coUninit
    ∧ ((convertDocEvents true outcome).2 = true ↔ outcome = DocConvOutcome.allOk)
    ∧ ComEvent.poolAcquireWord ∉ (convertDocEvents true outcome).1
    ∧ ComEvent.poolReleaseWord ∉ (convertDocEvents true outcome).1
    ∧ (outcome ≠ DocConvOutcome.wordStartFails →
        ComEvent.openDocument true false false ∈ (convertDocEvents true outcome).1
          ∧ ComEvent.quitWord ∈ (convertDocEvents true outcome).1)
    ∧ (outcome = DocConvOutcome.saveFails ∨ outcome = DocConvOutcome.allOk →
        ComEvent.saveAsPdf true ∈ (convertDocEvents true outcome).1
          ∧ ComEvent.closeDocument false ∈ (convertDocEvents true outcome).1) := by
  cases outcome <;> decide

/-- Witness for C2 amended on the successful outcome. -/
theorem C2_amended_witness :
    ComEvent.saveAsPdf true ∈ (convertDocEvents true DocConvOutcome.allOk).1
      ∧ ComEvent.closeDocument false ∈
          (convertDocEvents true DocConvOutcome.allOk).1 :=
  (C2_amended_direct_engine DocConvOutcome.allOk).2.2.2.2.2.2 (Or.inr rfl)

/-! ## Claim C9 -/

/-- C9: a .doc file whose first 8 bytes differ from the OLE2
signature (in particular any file shorter than 8 bytes) is rejected
as corrupt, and a .docx file whose archive lacks the content-types
manifest or the document body entry is rejected; in each case the
check returns false together with a non-OK reason. -/
theorem C9_integrity_rejections (f : InputFile) :
    (f.kind = WordFileKind.docFile → f.headBytes.take 8 ≠ docSignature →
        (check_file_integrity f).1 = false ∧ (check_file_integrity f).2 ≠ "OK")
    ∧ (f.kind = WordFileKind.docFile → f.headBytes.length < 8 →
        (check_file_integrity f).1 = false)
    ∧ (∀ z : ZipArchive, f.kind = WordFileKind.docxFile → f.zip = some z →
        "[Content_Types].xml" ∉ z.names ∨ "word/document.xml" ∉ z.names →
        (check_file_integrity f).1 = false ∧ (check_file_integrity f).2 ≠ "OK")
    ∧ (f.kind = WordFileKind.docxFile → f.zip = none →
        (check_file_integrity f).1 = false) := by
  obtain ⟨kind, hb, fz⟩ := f
  have hdoc : kind = WordFileKind.docFile → hb.take 8 ≠ docSignature →
      (check_file_integrity ⟨kind, hb, fz⟩).1 = false
        ∧ (check_file_integrity ⟨kind, hb, fz⟩).2 ≠ "OK" := by
    intro hk hsig
    subst hk
    simp only [check_file_integrity]
    rw [if_neg hsig]
    exact ⟨rfl, by decide⟩
  refine ⟨hdoc, ?_, ?_, ?_⟩
  · intro hk hlen
    have hlen2 : hb.length < 8 := hlen
    have hsig : hb.take 8 ≠ docSignature := by
      intro he
      have h1 : (hb.take 8).length = docSignature.length := by rw [he]
      rw [List.length_take] at h1
      simp [docSignature] at h1
      omega
    exact (hdoc hk hsig).1
  · intro z hk hz hmiss
    subst hk
    subst hz
    simp only [check_file_integrity]
    rcases hmiss with hm | hm
    · rw [if_pos hm]
      exact ⟨rfl, by decide⟩
    · by_cases hct : "[Content_Types].xml" ∉ z.names
      · rw [if_pos hct]
        exact ⟨rfl, by decide⟩
      · rw [if_neg hct, if_pos hm]
        exact ⟨rfl, by decide⟩
  · intro hk hz
    subst hk
    subst hz
    rfl

/-- Witness for C9: the empty .doc file is rejected. -/
theorem C9_witness :
    (check_file_integrity
        { kind := WordFileKind.docFile, headBytes := [], zip := none }).1 = false
      ∧ (check_file_integrity
          { kind := WordFileKind.docFile, headBytes := [], zip := none }).2
        ≠ "OK" :=
  (C9_integrity_rejections
      { kind := WordFileKind.docFile, headBytes := [], zip := none }).1 rfl
    (by decide)

/-! ## Claim C1 -/

/-- C1: _compress_pdf replaces the original file and returns true
exactly when the container rewritten to the temporary path is
strictly smaller than the original; whenever it returns false
(including when the open/save raised) the original bytes are
unchanged; and any exception inside the per-image block leaves that
image stream untouched. -/
theorem C1_replace_iff_smaller (settings : CompressionSettings)
    (origBytes : List Nat) (pages : PdfPages) (o : ImageOracle)
    (save : List (List ImageAction) → SaveOutcome) :
    ((compressPdf settings origBytes pages o save).2 = true ↔
      ∃ temp,
        save (processedPdf (effectiveLevel settings) o pages)
          = SaveOutcome.savedBytes temp
        ∧ temp.length < origBytes.length)
    ∧ ((compressPdf settings origBytes pages o save).2 = false →
        (compressPdf settings origBytes pages o save).1 = origBytes)
    ∧ ((compressPdf settings origBytes pages o save).2 = true →
        ∃ temp, (compressPdf settings origBytes pages o save).1 = temp
          ∧ temp.length < origBytes.length)
    ∧ (∀ (lvl : Int) (img : ImageStream) (j p : List Nat),
        processImage lvl img false j p = ImageAction.untouched) := by
  have hrun : compressPdf settings origBytes pages o save
      = match save (processedPdf (effectiveLevel settings) o pages) with
        | .raised => (origBytes, false)
        | .savedBytes temp =>
            if temp.length < origBytes.length then (temp, true)
            else (origBytes, false) := rfl
  refine ⟨?_, ?_, ?_, ?_⟩
  · rw [hrun]
    rcases hs : save (processedPdf (effectiveLevel settings) o pages) with _ | temp
    · simp
    · by_cases hlen : temp.length < origBytes.length <;> simp [hlen]
  · rw [hrun]
    rcases hs : save (processedPdf (effectiveLevel settings) o pages) with _ | temp
    · intro _
      rfl
    · by_cases hlen : temp.length < origBytes.length <;> simp [hlen]
  · rw [hrun]
    rcases hs : save (processedPdf (effectiveLevel settings) o pages) with _ | temp
    · intro hfb
      exact absurd hfb (by simp)
    · by_cases hlen : temp.length < origBytes.length <;> simp [hlen]
  · intro lvl img j p
    simp [processImage]

/-- Witness for C1: a save that shrinks two bytes to one commits. -/
theorem C1_witness :
    (compressPdf defaultSettings [0, 0] []
        { decodeOk := fun _ => true, jpegOut := fun _ => [], pngOut := fun _ => [] }
        (fun _ => SaveOutcome.savedBytes [0])).2 = true :=
  (C1_replace_iff_smaller defaultSettings [0, 0] []
      { decodeOk := fun _ => true, jpegOut := fun _ => [], pngOut := fun _ => [] }
      (fun _ => SaveOutcome.savedBytes [0])).1.mpr ⟨[0], rfl, by decide⟩

/-! ## Claim C6 -/

/-- C6: level 1 never touches an embedded image; level 2 decides to
recompress exactly the streams that are uncompressed or use
FlateDecode; level 3 and above decide to recompress every stream; and
a re-encoded opaque (RGB or grayscale after color conversion) image
replaces the original stream only when strictly smaller at level 2
(level 1 being unreachable), but unconditionally at levels 3 and
above. -/
theorem C6_per_stream_policy :
    (∀ (img : ImageStream) (d : Bool) (j p : List Nat),
        processImage 1 img d j p = ImageAction.untouched)
    ∧ (∀ filt : Option PdfFilterKind,
        shouldCompressStream 2 filt = true ↔
          filt = none ∨ filt = some PdfFilterKind.flateDecode)
    ∧ (∀ (lvl : Int) (filt : Option PdfFilterKind),
        3 ≤ lvl → shouldCompressStream lvl filt = true)
    ∧ (∀ (img : ImageStream) (j p : List Nat),
        (convertColorSpace img.mode = ImageMode.modeRGB ∨
          convertColorSpace img.mode = ImageMode.modeL) →
        shouldCompressStream 2 img.filt = true →
        (processImage 2 img true j p = ImageAction.replacedJpeg j ↔
          j.length < img.raw.length))
    ∧ (∀ (lvl : Int) (img : ImageStream) (j p : List Nat),
        3 ≤ lvl →
        (convertColorSpace img.mode = ImageMode.modeRGB ∨
          convertColorSpace img.mode = ImageMode.modeL) →
        processImage lvl img true j p = ImageAction.replacedJpeg j) := by
  refine ⟨?_, ?_, ?_, ?_, ?_⟩
  · intro img d j p
    unfold processImage
    rw [if_pos rfl]
  · intro filt
    rcases filt with _ | k
    · decide
    · cases k <;> decide
  · intro lvl filt h3
    unfold shouldCompressStream
    rw [Bool.or_eq_true]
    exact Or.inl (decide_eq_true h3)
  · intro img j p hmode hsc
    rcases hmode with hm | hm <;>
      · by_cases hj : j.length < img.raw.length <;>
          simp [processImage, hsc, hm, hj]
  · intro lvl img j p h3 hmode
    have h1 : ¬ (lvl = 1) := by omega
    have hsc : shouldCompressStream lvl img.filt = true := by
      unfold shouldCompressStream
      rw [Bool.or_eq_true]
      exact Or.inl (decide_eq_true h3)
    rcases hmode with hm | hm <;> simp [processImage, h1, hsc, hm, h3]

/-- Witness for C6: level 3 recompresses a DCT-compressed stream. -/
theorem C6_witness :
    shouldCompressStream 3 (some PdfFilterKind.dctDecode) = true :=
  C6_per_stream_policy.2.2.1 3 (some PdfFilterKind.dctDecode) (by decide)

/-! ## Claim C4 -/

/-- C4: when the batch has appended each job index to exactly one of
the processed or failed lists without duplicates (so their
concatenation has no repeats), the record written by save_state
satisfies remaining = total minus the size of the union of processed
and failed, processed and failed are disjoint, and the very same
record is returned by a subsequent load_state. -/
theorem C4_checkpoint_invariant (store : RecoveryStore) (files : List String)
    (output_folder : Option String) (processed failed : List Nat)
    (hnodup : (processed ++ failed).Nodup) :
    load_state (save_state store files output_folder processed failed)
      = some (saveStateRecord files output_folder processed failed)
    ∧ (saveStateRecord files output_folder processed failed).remaining
        = ((saveStateRecord files output_folder processed failed).total : Int)
          - ((processed ++ failed).dedup.length : Int)
    ∧ processed.Disjoint failed := by
  refine ⟨rfl, ?_, ?_⟩
  · have hd : (processed ++ failed).dedup = processed ++ failed :=
      List.dedup_eq_self.mpr hnodup
    rw [hd]
    simp only [saveStateRecord, List.length_append]
    push_cast
    ring
  · exact (List.nodup_append.mp hnodup).2.2

/-- Witness for C4 on a three-file batch with one success and one
failure. -/
theorem C4_witness :
    load_state (save_state none ["a", "b", "c"] none [0] [1])
      = some (saveStateRecord ["a", "b", "c"] none [0] [1])
    ∧ (saveStateRecord ["a", "b", "c"] none [0] [1]).remaining
        = ((saveStateRecord ["a", "b", "c"] none [0] [1]).total : Int)
          - ((([0] : List Nat) ++ [1]).dedup.length : Int)
    ∧ List.Disjoint [0] [1] :=
  C4_checkpoint_invariant none ["a", "b", "c"] none [0] [1] (by decide)

/-! ## Claim C10 -/

/-- The results list accumulated by the convert_batch fold. -/
theorem batchFold_results (convOne : String → String → Bool × String)
    (output_dir : Option String) :
    ∀ (l : List String) (acc : BatchResults),
      (l.foldl (batchFold convOne output_dir) acc).results
        = acc.results ++ l.map (batchRecord convOne output_dir) := by
  intro l
  induction l with
  | nil => intro acc; simp
  | cons p rest ih =>
      intro acc
      rw [List.foldl_cons, ih]
      simp [batchFold]

/-- The total field is never modified by the convert_batch fold. -/
theorem batchFold_total (convOne : String → String → Bool × String)
    (output_dir : Option String) :
    ∀ (l : List String) (acc : BatchResults),
      (l.foldl (batchFold convOne output_dir) acc).total = acc.total := by
  intro l
  induction l with
  | nil => intro acc; rfl
  | cons p rest ih =>
      intro acc
      rw [List.foldl_cons, ih]
      rfl

/-- Each iteration of the convert_batch fold adds one to exactly one
of the success and failed counters. -/
theorem batchFold_counts (convOne : String → String → Bool × String)
    (output_dir : Option String) :
    ∀ (l : List String) (acc : BatchResults),
      (l.foldl (batchFold convOne output_dir) acc).success
          + (l.foldl (batchFold convOne output_dir) acc).failed
        = acc.success + acc.failed + l.length := by
  intro l
  induction l with
  | nil => intro acc; simp
  | cons p rest ih =>
      intro acc
      rw [List.foldl_cons, ih]
      by_cases h : (batchRecord convOne output_dir p).success <;>
        simp [batchFold, h] <;> omega

/-- C10: convert_batch returns total equal to the input length, its
success and failed counts sum to total, its results list is exactly
one record per input file in input order, and each record carries an
output path exactly when that conversion succeeded. -/
theorem C10_batch_result_shape (convOne : String → String → Bool × String)
    (file_paths : List String) (output_dir : Option String) :
    (convert_batch convOne file_paths output_dir).total = file_paths.length
    ∧ (convert_batch convOne file_paths output_dir).success
        + (convert_batch convOne file_paths output_dir).failed
      = (convert_batch convOne file_paths output_dir).total
    ∧ (convert_batch convOne file_paths output_dir).results
      = file_paths.map (batchRecord convOne output_dir)
    ∧ ∀ r ∈ (convert_batch convOne file_paths output_dir).results,
        r.output.isSome = r.success
        ∧ (r.success = true →
            ∃ pth : String, r.output = some pth) := by
  refine ⟨?_, ?_, ?_, ?_⟩
  · exact batchFold_total convOne output_dir file_paths _
  · simp only [convert_batch]
    rw [batchFold_counts convOne output_dir file_paths _,
      batchFold_total convOne output_dir file_paths _]
    simp
  · rw [convert_batch, batchFold_results convOne output_dir file_paths _]
    simp
  · intro r hr
    rw [convert_batch, batchFold_results convOne output_dir file_paths _] at hr
    simp only [List.nil_append, List.mem_map] at hr
    obtain ⟨p, _, hp⟩ := hr
    subst hp
    unfold batchRecord
    by_cases h : (convOne p (outputPathFor output_dir p)).1 <;> simp [h]

/-- Witness for C10 on a two-file batch where only the first file
converts. -/
theorem C10_witness :
    (convert_batch (fun p _ => (decide (p = "x/a.docx"), "m"))
        ["x/a.docx", "x/b.doc"] (some "out")).total = 2
    ∧ ∀ r ∈ (convert_batch (fun p _ => (decide (p = "x/a.docx"), "m"))
          ["x/a.docx", "x/b.doc"] (some "out")).results,
        r.output.isSome = r.success := by
  have h := C10_batch_result_shape (fun p _ => (decide (p = "x/a.docx"), "m"))
    ["x/a.docx", "x/b.doc"] (some "out")
  exact ⟨h.1, fun r hr => (h.2.2.2 r hr).1⟩

/-! ## Claim C7 -/

/-- One batch iteration appends a checkpoint exactly when the 1-based
job count is a multiple of 5. -/
theorem batchStep_checkpoints_len (st : BatchState) (i : Nat) (out : JobOutcome) :
    (batchStep st i out).checkpoints.length
      = st.checkpoints.length + (if (i + 1) % 5 = 0 then 1 else 0) := by
  unfold batchStep recordJob
  cases out <;> split_ifs <;> simp

/-- Checkpoints accumulated by the loop: one per executed index whose
1-based position is a multiple of 5, where the executed indices are
the prefix of the list before the stop flag is first seen. -/
theorem runBatchAux_checkpoints_len (outcome : Nat → JobOutcome)
    (stop : Nat → Bool) :
    ∀ (l : List Nat) (st : BatchState),
      (runBatchAux outcome stop l st).checkpoints.length
        = st.checkpoints.length
          + (l.takeWhile (fun i => ! stop i)).countP
              (fun i => decide ((i + 1) % 5 = 0)) := by
  intro l
  induction l with
  | nil => intro st; simp [runBatchAux]
  | cons i rest ih =>
      intro st
      by_cases hstop : stop i
      · simp [runBatchAux, hstop, List.takeWhile_cons]
      · rw [show runBatchAux outcome stop (i :: rest) st
            = runBatchAux outcome stop rest (batchStep st i (outcome i)) by
          simp [runBatchAux, hstop]]
        rw [ih, batchStep_checkpoints_len, List.takeWhile_cons]
        simp [hstop, List.countP_cons]
        omega

/-- The executed prefix of the index range is itself an initial
range. -/
theorem takeWhile_range_eq_range (q : Nat → Bool) (n : Nat) :
    (List.range n).takeWhile q
      = List.range ((List.range n).takeWhile q).length := by
  have h1 := List.takeWhile_prefix (l := List.range n) q
  have h2 := List.prefix_iff_eq_take.mp h1
  have h3 : ((List.range n).takeWhile q).length ≤ n := by
    have h4 := List.IsPrefix.length_le h1
    rwa [List.length_range] at h4
  conv_lhs => rw [h2]
  rw [List.take_range]
  congr 1
  exact min_eq_left h3

/-- Among the first j indices, those whose 1-based position is a
multiple of 5 number exactly j / 5. -/
theorem countP_range_mul5 (j : Nat) :
    (List.range j).countP (fun i => decide ((i + 1) % 5 = 0)) = j / 5 := by
  induction j with
  | zero => simp
  | succ j ih =>
      rw [List.range_succ, List.countP_append, ih, Nat.succ_div]
      by_cases h : (j + 1) % 5 = 0
      · have hd : (5 : Nat) ∣ (j + 1) := by omega
        simp [h, hd, List.countP_cons]
      · have hd : ¬ (5 : Nat) ∣ (j + 1) := by omega
        simp [h, hd, List.countP_cons]

/-- C7: the batch persists one recovery checkpoint for every multiple
of 5 jobs completed before the run ends (normally or by cooperative
cancellation observed at a job boundary), and clear_state runs after
the loop on every run, so the checkpoint record is cleared when the
batch finishes, cancelled or not. -/
theorem C7_checkpoint_cadence (n : Nat) (outcome : Nat → JobOutcome)
    (stop : Nat → Bool) :
    (performConversion n outcome stop).recoveryCleared = true
    ∧ (performConversion n outcome stop).checkpoints.length
        = completedJobs n stop / 5 := by
  constructor
  · rfl
  · have h1 : (performConversion n outcome stop).checkpoints
        = (runBatchAux outcome stop (List.range n) initialBatchState).checkpoints :=
      rfl
    rw [h1, runBatchAux_checkpoints_len]
    have h2 := takeWhile_range_eq_range (fun i => ! stop i) n
    rw [h2, countP_range_mul5]
    simp [completedJobs, initialBatchState]

/-! ## Claim C8 -/

/-- The release path preserves the pool safety predicate: the cleaned
instance is only re-queued when the bounded queue has room, and it
carries zero open documents. -/
theorem releaseInstance_poolOk (p : WordPool) (s : WordSession)
    (h : poolOk p) : poolOk (releaseInstance p s) := by
  obtain ⟨h4, hlen, hdocs⟩ := h
  unfold releaseInstance
  split_ifs with h1 h2
  · refine ⟨h4, ?_, ?_⟩
    · simp only [List.length_append, List.length_cons, List.length_nil]
      omega
    · intro inst hmem
      rw [List.mem_append] at hmem
      rcases hmem with hm | hm
      · exact hdocs inst hm
      · simp only [List.mem_singleton] at hm
        rw [hm]
  · exact ⟨h4, hlen, hdocs⟩
  · exact ⟨h4, hlen, hdocs⟩

/-- The lazy fill preserves the pool safety predicate: at most
pool_size fresh instances are created, each with zero open
documents. -/
theorem fillPool_poolOk (p : WordPool) (ca : List Bool) (h : poolOk p) :
    poolOk (p.fillPool ca) := by
  obtain ⟨h4, hlen, hdocs⟩ := h
  unfold WordPool.fillPool
  split_ifs
  · exact ⟨h4, hlen, hdocs⟩
  · refine ⟨h4, ?_, ?_⟩
    · simp only [List.length_map, List.length_take]
      exact min_le_left _ _
    · intro inst hmem
      simp only [List.mem_map] at hmem
      obtain ⟨a, _, ha⟩ := hmem
      rw [← ha]

/-- The acquire path preserves the pool safety predicate on the
resulting pool state, across every branch: pop from the queue, empty
queue with or without a temporary instance, failed liveness probe
with or without a replacement. -/
theorem acquireWord_poolOk (p : WordPool) (ia : List Bool) (ta ra : Option Bool)
    (h : poolOk p) : poolOk (p.acquireWord ia ta ra).1 := by
  unfold WordPool.acquireWord
  split_ifs with hclosed
  · exact h
  · have h1 : poolOk (p.fillPool ia) := fillPool_poolOk p ia h
    obtain ⟨g4, glen, gdocs⟩ := h1
    rcases hpool : (p.fillPool ia).pool with _ | ⟨w, rest⟩
    · rw [hpool] at glen gdocs
      have hok : poolOk (p.fillPool ia) := by
        refine ⟨g4, ?_, ?_⟩
        · rw [hpool]
          exact Nat.zero_le _
        · rw [hpool]
          intro inst hmem
          exact absurd hmem (List.not_mem_nil inst)
      rcases ta with _ | a
      · simp only [hpool]
        exact hok
      · simp only [hpool]
        by_cases ha : a <;> rcases ra with _ | a2 <;> simp [ha] <;> exact hok
    · rw [hpool] at glen gdocs
      have hrest : poolOk { p.fillPool ia with pool := rest } := by
        refine ⟨g4, ?_, ?_⟩
        · simp only [List.length_cons] at glen
          simpa using Nat.le_of_succ_le glen
        · intro inst hmem
          exact gdocs inst (List.mem_cons_of_mem w hmem)
      simp only [hpool]
      by_cases hw : w.alive
      · simp [hw]
        exact hrest
      · rcases ra with _ | a2
        · simp [hw]
          exact releaseInstance_poolOk _ _ hrest
        · simp [hw]
          exact hrest

/-- Every pool-world operation preserves the pool safety predicate. -/
theorem poolStep_poolOk (w : PoolWorld) (e : PoolEvent)
    (h : poolOk w.pool) : poolOk (poolStep w e).pool := by
  cases e with
  | evAcquire ia ta ra =>
      have h1 := acquireWord_poolOk w.pool ia ta ra h
      rcases hac : w.pool.acquireWord ia ta ra with ⟨p2, s⟩
      rw [hac] at h1
      rcases s with _ | s <;> simp only [poolStep, hac] <;> exact h1
  | evRelease k docs =>
      rcases hget : w.checkedOut[k]? with _ | s
      · simp only [poolStep, hget]
        exact h
      · simp only [poolStep, hget]
        exact releaseInstance_poolOk _ _ h
  | evClose =>
      simp only [poolStep]
      unfold WordPool.closePool
      split_ifs
      · exact h
      · refine ⟨h.1, by simp, ?_⟩
        intro inst hmem
        exact absurd hmem (List.not_mem_nil inst)

/-- The pool safety predicate holds along any fold of operations. -/
theorem foldl_poolStep_poolOk (evs : List PoolEvent) :
    ∀ w : PoolWorld, poolOk w.pool → poolOk (evs.foldl poolStep w).pool := by
  induction evs with
  | nil => intro w h; exact h
  | cons e rest ih =>
      intro w h
      rw [List.foldl_cons]
      exact ih _ (poolStep_poolOk w e h)

/-- C8: for every requested size and every interleaving of acquire
and release operations, the pool capacity is capped at 4, the number
of idle handles held by the pool never exceeds that capacity, and
every handle sitting idle in the pool (in particular at the moment it
is released back) has zero open documents. -/
theorem C8_pool_capacity_and_idle_docs (requested : Nat) (evs : List PoolEvent) :
    (runPool requested evs).pool.pool_size ≤ 4
    ∧ (runPool requested evs).pool.pool.length
        ≤ (runPool requested evs).pool.pool_size
    ∧ ∀ inst ∈ (runPool requested evs).pool.pool, inst.openDocs = 0 := by
  have h0 : poolOk (WordPool.create requested) := by
    refine ⟨min_le_right _ _, Nat.zero_le _, ?_⟩
    intro inst hmem
    exact absurd hmem (List.not_mem_nil inst)
  exact foldl_poolStep_poolOk evs _ h0

/-- Witness for C8 after one acquire and one release on a pool
requested with size 7. -/
theorem C8_witness :
    (runPool 7 [PoolEvent.evAcquire [true, true] none none,
        PoolEvent.evRelease 0 3]).pool.pool_size ≤ 4 :=
  (C8_pool_capacity_and_idle_docs 7
    [PoolEvent.evAcquire [true, true] none none,
     PoolEvent.evRelease 0 3]).1

end PdfConv
